import Mathlib

/-!
Shallow embedding of `internal/anti_spam/ai.go` (the AI-backed anti-spam
checker of Artalk) together with proofs about its behaviour.

The Go file defines:
  * `NewAIChecker` — constructor that normalizes the configured host,
  * `buildModerationPrompt` — the prompt template,
  * `callAPI` — one HTTP round trip to `https://{host}/v1/chat/completions`,
  * `parseAIResponse` — the PASS/BLOCK verdict parser,
  * `Check` — the `Checker` interface method tying these together.

Pure string manipulation is embedded directly.  The effectful boundary of
`callAPI` (JSON marshalling, request construction, transport, body read,
unmarshalling, and the decoded response envelope) is abstracted by a
`CallEvent` oracle describing which outcome the environment produced; the
code's own control flow after each outcome is translated faithfully.
-/

namespace AntiSpam

/-- Go `strings`-package helpers, modelled over the character list of a
`String` (Go operates on the UTF-8 bytes; on well-formed text the two views
agree for the operations used here). -/
def toUpperStr (s : String) : String :=
  ⟨s.data.map Char.toUpper⟩

/-- Go `strings.TrimSpace`: drop whitespace from both ends. -/
def trimSpace (s : String) : String :=
  ⟨((s.data.dropWhile Char.isWhitespace).reverse.dropWhile Char.isWhitespace).reverse⟩

/-- Membership of `needle` as a contiguous run inside `hay`
(Go `strings.Contains`). -/
def isInfixList (needle : List Char) : List Char → Bool
  | [] => needle.isPrefixOf []
  | c :: t => needle.isPrefixOf (c :: t) || isInfixList needle t

/-- Go `strings.Contains s sub`. -/
def containsSubstr (s sub : String) : Bool :=
  isInfixList sub.data s.data

/-- Go `strings.HasSuffix`. -/
def hasSuffixStr (s suffix : String) : Bool :=
  suffix.data.isSuffixOf s.data

/-- Go `strings.HasPrefix`. -/
def hasPrefixStr (s pre : String) : Bool :=
  pre.data.isPrefixOf s.data

/-- Go `strings.TrimSuffix`: remove one trailing occurrence if present. -/
def trimSuffixStr (s suffix : String) : String :=
  if hasSuffixStr s suffix then ⟨s.data.take (s.data.length - suffix.data.length)⟩ else s

/-- Go `strings.TrimPrefix`: remove one leading occurrence if present. -/
def trimPrefixStr (s pre : String) : String :=
  if hasPrefixStr s pre then ⟨s.data.drop pre.data.length⟩ else s

/-- Modelled from the spec: `CheckerParams` is declared outside this fragment;
per the spec it carries at least the three untrusted comment fields the
checker reads. -/
structure CheckerParams where
  UserName : String
  UserEmail : String
  Content : String
deriving DecidableEq, Repr

/-- The `AIChecker` struct: `apiKey`, `model`, normalized `host`. -/
structure AIChecker where
  apiKey : String
  model : String
  host : String
deriving DecidableEq, Repr

/-- Host normalization exactly as in `NewAIChecker` (ai.go lines 24–30):
default empty host, then strip one trailing `/`, then one leading
`https://`, then one leading `http://`. -/
def normalizeHost (host : String) : String :=
  let host := if host = "" then "api.openai.com" else host
  let host := trimSuffixStr host "/"
  let host := trimPrefixStr host "https://"
  trimPrefixStr host "http://"

/-- `NewAIChecker` (ai.go lines 23–37). -/
def NewAIChecker (apiKey model host : String) : AIChecker :=
  { apiKey := apiKey, model := model, host := normalizeHost host }

/-- `(*AIChecker).Name` (ai.go lines 39–41). -/
def Name (_ : AIChecker) : String := "ai"

/-- `buildModerationPrompt` (ai.go lines 56–75): `fmt.Sprintf` on the fixed
template with the three `%s` verbs, i.e. concatenation of the template
pieces with the fields interpolated verbatim. -/
def promptHead : String :=
  "You are a content moderation assistant. Your task is to determine if the following comment should be approved or blocked.\n\nA comment should be BLOCKED if it contains:\n- Spam or advertising\n- Hate speech or discrimination\n- Harassment or personal attacks\n- Pornographic or sexually explicit content\n- Violence or threats\n- Illegal content\n- Meaningless or gibberish text\n- Excessive profanity\n\nComment Information:\n- Author: "

/-- Template piece between the author name and the email. -/
def promptEmailSep : String := "\n- Email: "

/-- Template piece between the email and the content. -/
def promptContentSep : String := "\n- Content: "

/-- Template piece after the content. -/
def promptTail : String :=
  "\n\nRespond with ONLY one word: \"PASS\" if the comment should be approved, or \"BLOCK\" if it should be blocked."

/-- `buildModerationPrompt` itself. -/
def buildModerationPrompt (p : CheckerParams) : String :=
  promptHead ++ p.UserName ++ promptEmailSep ++ p.UserEmail
    ++ promptContentSep ++ p.Content ++ promptTail

/-- `openAIMessage` (ai.go lines 82–85). -/
structure openAIMessage where
  Role : String
  Content : String
deriving DecidableEq, Repr

/-- `openAIRequest` (ai.go lines 77–80). -/
structure openAIRequest where
  Model : String
  Messages : List openAIMessage
deriving DecidableEq, Repr

/-- The nested `message` object of one choice of `openAIResponse`
(ai.go lines 88–92). -/
structure responseMessage where
  Content : String
deriving DecidableEq, Repr

/-- One element of `openAIResponse.Choices`. -/
structure responseChoice where
  Message : responseMessage
deriving DecidableEq, Repr

/-- `openAIResponse` (ai.go lines 87–96): choices plus an optional error
payload (`Error *struct{ Message string }`, `none` = nil pointer, the
stored string being the `Message` field). -/
structure openAIResponse where
  Choices : List responseChoice
  Error : Option String
deriving DecidableEq, Repr

/-- The outbound HTTP request assembled by `callAPI` (ai.go lines 98–122):
method, URL, the structured JSON body handed to `json.Marshal`, and the two
headers set on it. -/
structure HttpRequest where
  method : String
  url : String
  body : openAIRequest
  headers : List (String × String)
deriving DecidableEq, Repr

/-- Request construction in `callAPI` (ai.go lines 99–122). -/
def buildRequest (c : AIChecker) (prompt : String) : HttpRequest :=
  { method := "POST"
    url := "https://" ++ c.host ++ "/v1/chat/completions"
    body := { Model := c.model
              Messages := [{ Role := "user", Content := prompt }] }
    headers := [("Content-Type", "application/json"),
                ("Authorization", "Bearer " ++ c.apiKey)] }

/-- The `http.Client` timeout configured at ai.go line 125, in seconds. -/
def clientTimeoutSeconds : Nat := 30

/-- Oracle for the effectful boundary of `callAPI`: which outcome the
environment (JSON library, `net/http`, the remote service) produced.  Each
error constructor carries the underlying error's message; `response` carries
the decoded envelope. -/
inductive CallEvent where
  | marshalError (msg : String)
  | requestError (msg : String)
  | transportError (msg : String)
  | readError (msg : String)
  | unmarshalError (msg : String)
  | response (r : openAIResponse)
deriving DecidableEq, Repr

/-- `callAPI` (ai.go lines 98–153): error wrapping and the post-decode
checks (error payload first, then empty choices, then first choice's
content), given the environment's outcome. -/
def callAPI (c : AIChecker) (prompt : String) (ev : CallEvent) : Except String String :=
  let _req := buildRequest c prompt
  match ev with
  | .marshalError m => .error ("failed to marshal request: " ++ m)
  | .requestError m => .error ("failed to create request: " ++ m)
  | .transportError m => .error ("failed to call AI API: " ++ m)
  | .readError m => .error ("failed to read response: " ++ m)
  | .unmarshalError m => .error ("failed to unmarshal response: " ++ m)
  | .response r =>
    match r.Error with
    | some msg => .error ("AI API error: " ++ msg)
    | none =>
      match r.Choices with
      | [] => .error "no response from AI API"
      | ch :: _ => .ok ch.Message.Content

/-- `parseAIResponse` (ai.go lines 155–171). -/
def parseAIResponse (response : String) : Bool :=
  let response := trimSpace (toUpperStr response)
  if containsSubstr response "PASS" then true
  else if containsSubstr response "BLOCK" then false
  else true

/-- `(*AIChecker).Check` (ai.go lines 43–54), with Go's `(bool, error)`
return modelled as `Bool × Option String` (`none` = nil error). -/
def Check (c : AIChecker) (p : CheckerParams) (ev : CallEvent) : Bool × Option String :=
  let prompt := buildModerationPrompt p
  match callAPI c prompt ev with
  | .error e => (false, some e)
  | .ok response => (parseAIResponse response, none)

/-- State-passing rendering of `Check`: the Go method receives a pointer to
the params; this version additionally returns the params value as it stands
after the call (the method body contains no write through the pointer, so
the translation threads the value through unchanged). -/
def CheckWithState (c : AIChecker) (p : CheckerParams) (ev : CallEvent) :
    (Bool × Option String) × CheckerParams :=
  let prompt := buildModerationPrompt p
  match callAPI c prompt ev with
  | .error e => ((false, some e), p)
  | .ok response => ((parseAIResponse response, none), p)

/-- Which `CallEvent`s the spec's §4.4 lists as failures. -/
def failureEvent : CallEvent → Bool
  | .marshalError _ => true
  | .requestError _ => true
  | .transportError _ => true
  | .readError _ => true
  | .unmarshalError _ => true
  | .response r => r.Error.isSome || r.Choices.isEmpty

/-- C1: the verdict parser upper-cases and trims the raw response text, then
answers allow when it contains `PASS`, block when it instead contains
`BLOCK`, and allow (fail-open) otherwise; in particular a first-choice
content of `maybe?` makes `Check` return `(true, nil)`. -/
theorem C1_verdict_parsing :
    (∀ r : String, parseAIResponse r =
      (let u := trimSpace (toUpperStr r)
       if containsSubstr u "PASS" then true
       else if containsSubstr u "BLOCK" then false
       else true))
    ∧ (∀ (c : AIChecker) (p : CheckerParams),
        Check c p (CallEvent.response ⟨[⟨⟨"maybe?"⟩⟩], none⟩) = (true, none)) := by
  constructor
  · intro r
    rfl
  · intro c p
    simp [Check, callAPI]
    decide

/-- C2: on every failure of the remote call — marshalling, request
construction, transport, body read, unmarshalling, an upstream error
payload, or zero choices — `Check` returns `false` together with a non-nil
error; it never resolves a failure into a block verdict silently. -/
theorem C2_failures_surface (c : AIChecker) (p : CheckerParams) (ev : CallEvent)
    (h : failureEvent ev = true) :
    (Check c p ev).1 = false ∧ (Check c p ev).2.isSome = true := by
  cases ev with
  | marshalError m => simp [Check, callAPI]
  | requestError m => simp [Check, callAPI]
  | transportError m => simp [Check, callAPI]
  | readError m => simp [Check, callAPI]
  | unmarshalError m => simp [Check, callAPI]
  | response r =>
    obtain ⟨chs, err⟩ := r
    cases err with
    | some msg => simp [Check, callAPI]
    | none =>
      cases chs with
      | nil => simp [Check, callAPI]
      | cons a t => simp [failureEvent] at h

/-- Witness for C2 at the concrete zero-choices response. -/
theorem C2_failures_surface_witness :
    failureEvent (CallEvent.response ⟨[], none⟩) = true
    ∧ ((Check (NewAIChecker "k" "m" "") ⟨"u", "e", "c"⟩
          (CallEvent.response ⟨[], none⟩)).1 = false
       ∧ (Check (NewAIChecker "k" "m" "") ⟨"u", "e", "c"⟩
            (CallEvent.response ⟨[], none⟩)).2.isSome = true) :=
  ⟨by decide, C2_failures_surface (NewAIChecker "k" "m" "") ⟨"u", "e", "c"⟩
    (CallEvent.response ⟨[], none⟩) (by decide)⟩

/-- C3: `NewAIChecker` stores the normalized host — an empty host becomes
`api.openai.com`, then one trailing `/` and one leading `https://` or
`http://` are stripped — and every constructed request URL is exactly
`https://{host}/v1/chat/completions`, so TLS is always used. -/
theorem C3_host_normalization :
    ∀ k m s : String,
      (NewAIChecker k m s).host =
        trimPrefixStr (trimPrefixStr
          (trimSuffixStr (if s = "" then "api.openai.com" else s) "/") "https://") "http://"
      ∧ (s = "" → (NewAIChecker k m s).host = "api.openai.com")
      ∧ ∀ prompt, (buildRequest (NewAIChecker k m s) prompt).url =
          "https://" ++ (NewAIChecker k m s).host ++ "/v1/chat/completions" := by
  intro k m s
  refine ⟨rfl, ?_, fun prompt => rfl⟩
  intro hs
  subst hs
  show normalizeHost "" = "api.openai.com"
  decide

/-- Witness for C3 at the empty host. -/
theorem C3_host_normalization_witness :
    ("" : String) = "" ∧ (NewAIChecker "k" "m" "").host = "api.openai.com" :=
  ⟨rfl, (C3_host_normalization "k" "m" "").2.1 rfl⟩

/-- C4 counterexample: host normalization is not idempotent.  The input
`x//` normalizes to `x/` (one trailing slash stripped), and re-normalizing
that already-normalized value strips the remaining slash, giving `x`. -/
theorem C4_idempotence_counterexample :
    ¬ ((NewAIChecker "k" "m" ((NewAIChecker "k" "m" "x//").host)).host
        = (NewAIChecker "k" "m" "x//").host) := by
  decide

/-- C4 (amended): normalization is idempotent on every value that is
nonempty, has no trailing `/`, and carries no `https://` or `http://`
scheme — which covers ordinary normalized hosts, though not every output of
the normalizer — and the three inputs `https://foo.bar/`, `foo.bar`, and
`http://foo.bar` all yield the request URL
`https://foo.bar/v1/chat/completions`. -/
theorem C4_guarded_idempotence :
    (∀ v : String, v ≠ "" → hasSuffixStr v "/" = false →
        hasPrefixStr v "https://" = false → hasPrefixStr v "http://" = false →
        normalizeHost v = v)
    ∧ ∀ prompt : String,
        (buildRequest (NewAIChecker "k" "m" "https://foo.bar/") prompt).url
            = "https://foo.bar/v1/chat/completions"
        ∧ (buildRequest (NewAIChecker "k" "m" "foo.bar") prompt).url
            = "https://foo.bar/v1/chat/completions"
        ∧ (buildRequest (NewAIChecker "k" "m" "http://foo.bar") prompt).url
            = "https://foo.bar/v1/chat/completions" := by
  constructor
  · intro v hne hsuf hs hh
    simp [normalizeHost, trimSuffixStr, trimPrefixStr, hne, hsuf, hs, hh]
  · intro prompt
    refine ⟨?_, ?_, ?_⟩
    · show "https://" ++ (NewAIChecker "k" "m" "https://foo.bar/").host
          ++ "/v1/chat/completions" = "https://foo.bar/v1/chat/completions"
      decide
    · show "https://" ++ (NewAIChecker "k" "m" "foo.bar").host
          ++ "/v1/chat/completions" = "https://foo.bar/v1/chat/completions"
      decide
    · show "https://" ++ (NewAIChecker "k" "m" "http://foo.bar").host
          ++ "/v1/chat/completions" = "https://foo.bar/v1/chat/completions"
      decide

/-- Witness for C4's amended statement at `foo.bar`. -/
theorem C4_guarded_idempotence_witness :
    ("foo.bar" : String) ≠ ""
    ∧ hasSuffixStr "foo.bar" "/" = false
    ∧ hasPrefixStr "foo.bar" "https://" = false
    ∧ hasPrefixStr "foo.bar" "http://" = false
    ∧ normalizeHost "foo.bar" = "foo.bar" :=
  ⟨by decide, by decide, by decide, by decide,
    C4_guarded_idempotence.1 "foo.bar" (by decide) (by decide) (by decide) (by decide)⟩

/-- C5: `Check` yields a non-nil error exactly when the remote call itself
failed; a successful call never produces an error, however ambiguous its
text, so abstention (non-nil error) and an explicit block (`(false, nil)`)
are always distinguishable. -/
theorem C5_error_iff_call_failed :
    ∀ (c : AIChecker) (p : CheckerParams) (ev : CallEvent),
      (Check c p ev).2.isSome = failureEvent ev := by
  intro c p ev
  cases ev with
  | marshalError m => rfl
  | requestError m => rfl
  | transportError m => rfl
  | readError m => rfl
  | unmarshalError m => rfl
  | response r =>
    obtain ⟨chs, err⟩ := r
    cases err with
    | some msg => simp [Check, callAPI, failureEvent]
    | none =>
      cases chs with
      | nil => simp [Check, callAPI, failureEvent]
      | cons a t => simp [Check, callAPI, failureEvent]

/-- C6: the moderation prompt is a deterministic pure function of
`(UserName, UserEmail, Content)`, and the three fields are interpolated
verbatim into the fixed template pieces. -/
theorem C6_prompt_deterministic_verbatim :
    (∀ p q : CheckerParams, p.UserName = q.UserName → p.UserEmail = q.UserEmail →
        p.Content = q.Content → buildModerationPrompt p = buildModerationPrompt q)
    ∧ ∀ p : CheckerParams, buildModerationPrompt p =
        promptHead ++ p.UserName ++ promptEmailSep ++ p.UserEmail
          ++ promptContentSep ++ p.Content ++ promptTail := by
  constructor
  · intro p q h1 h2 h3
    simp [buildModerationPrompt, h1, h2, h3]
  · intro p
    rfl

/-- Witness for C6 at a concrete pair of equal-field params. -/
theorem C6_prompt_deterministic_witness :
    buildModerationPrompt ⟨"a", "b", "c"⟩ = buildModerationPrompt ⟨"a", "b", "c"⟩ :=
  C6_prompt_deterministic_verbatim.1 ⟨"a", "b", "c"⟩ ⟨"a", "b", "c"⟩ rfl rfl rfl

/-- C7: every outbound request is a POST to
`https://{host}/v1/chat/completions` whose structured JSON body is
`{model, messages: [{role: "user", content: prompt}]}` — one message with
role `user` — with the `Content-Type: application/json` and
`Authorization: Bearer <apiKey>` headers. -/
theorem C7_request_shape :
    ∀ k m s prompt : String,
      (buildRequest (NewAIChecker k m s) prompt).method = "POST"
      ∧ (buildRequest (NewAIChecker k m s) prompt).url =
          "https://" ++ (NewAIChecker k m s).host ++ "/v1/chat/completions"
      ∧ (buildRequest (NewAIChecker k m s) prompt).body =
          ⟨m, [⟨"user", prompt⟩]⟩
      ∧ (buildRequest (NewAIChecker k m s) prompt).headers =
          [("Content-Type", "application/json"), ("Authorization", "Bearer " ++ k)] :=
  fun _ _ _ _ => ⟨rfl, rfl, rfl, rfl⟩

/-- C9: `Check` does not mutate the params: the state-passing rendering of
the method returns the params unchanged on every path — success or failure —
while computing the same result as `Check`. -/
theorem C9_check_does_not_mutate_params :
    ∀ (c : AIChecker) (p : CheckerParams) (ev : CallEvent),
      (CheckWithState c p ev).2 = p ∧ (CheckWithState c p ev).1 = Check c p ev := by
  intro c p ev
  cases h : callAPI c (buildModerationPrompt p) ev with
  | error e => simp [CheckWithState, Check, h]
  | ok r => simp [CheckWithState, Check, h]

/-- C10: when the decoded response carries an error payload, `Check` returns
`(false, non-nil)` built from that payload regardless of the choices list —
the choices (and any verdict tokens in them) are never consulted, and the
empty-choices error cannot fire, since that check runs only after the
error-payload check. -/
theorem C10_error_payload_precedence :
    ∀ (c : AIChecker) (p : CheckerParams) (chs : List responseChoice) (e : String),
      Check c p (CallEvent.response ⟨chs, some e⟩) = (false, some ("AI API error: " ++ e)) :=
  fun _ _ _ _ => rfl

end AntiSpam
